/-
  Verification of the TTS gateway service (src/main.rs, src/premium.rs).

  Shallow embedding conventions:
  * Rust `String` / `&str` values are modelled as `List Char` (`Str`), so that
    concatenation is list append and the `format!` calls in the source become
    explicit appends.
  * Rust `f32` values (speaking rates, durations) are modelled as `Rat`; the
    `Display` rendering of an `f32` is modelled by `displayRat`, which prints
    terminating decimals the way Rust prints the corresponding float values
    (no trailing zeros, no decimal point for integers).
  * `std::time::SystemTime` is modelled as seconds since the epoch (`Nat`).
  * Fallible external calls (redis, the per-provider backends, the mp3 decoder)
    are oracle fields of an `Env` record; `get_tts` consumes the oracle and also
    returns the chronological list of external effects it performed, so that
    ordering claims are statements about the returned trace.
-/
import Mathlib

namespace TTSService

/-- Rust strings, modelled as their character sequences. -/
abbrev Str := List Char

/-- Audio byte buffers (`Vec<u8>` / `Bytes`). -/
abbrev Audio := List Nat

/-! ### Decimal rendering of numbers (model of the `{}` Display of `f32`) -/

/-- The character for a single decimal digit. -/
def digitChar (d : Nat) : Char := Char.ofNat (48 + d)

/-- Decimal digits of a positive natural number, most significant first;
    `fuel` bounds the recursion depth structurally. -/
def natDigitsAux : Nat → Nat → Str
  | 0, _ => []
  | fuel + 1, n => if n = 0 then [] else natDigitsAux fuel (n / 10) ++ [digitChar (n % 10)]

/-- Decimal digits of a natural number, most significant first. -/
def natDigits (n : Nat) : Str :=
  if n = 0 then ['0'] else natDigitsAux n n

/-- Left-pad a digit string with zeros up to width `k`. -/
def padZeros (k : Nat) (l : Str) : Str :=
  List.replicate (k - l.length) '0' ++ l

/-- The least `k` with `den ∣ 10 ^ k`, when one exists (i.e. when a fraction
    with this reduced denominator has a terminating decimal expansion). -/
def decimalExponent (den : Nat) : Option Nat :=
  (List.range (den + 1)).find? (fun k => decide (den ∣ 10 ^ k))

/-- Decimal rendering of the absolute value of a rational.  For rationals with
    a terminating decimal expansion (every `f32` value is one) this matches the
    Rust `Display` of the float: integer part, then a point and the fractional
    digits only when the fractional part is nonzero. -/
def displayPos (q : Rat) : Str :=
  match decimalExponent q.den with
  | some k =>
    if k = 0 then natDigits q.num.natAbs
    else
      natDigits (q.num.natAbs * (10 ^ k / q.den) / 10 ^ k) ++
        '.' :: padZeros k (natDigits (q.num.natAbs * (10 ^ k / q.den) % 10 ^ k))
  | none => natDigits q.num.natAbs ++ '/' :: natDigits q.den

/-- Model of `format!` rendering of an `f32` value: sign, then `displayPos`. -/
def displayRat (q : Rat) : Str :=
  if q < 0 then '-' :: displayPos q else displayPos q

/-! ### Modes and errors (`TTSMode`, `Error` in src/main.rs) -/

/-- The closed enumeration of providers (`enum TTSMode`). -/
inductive TTSMode
  | gTTS
  | Polly
  | eSpeak
  | gCloud
deriving DecidableEq, Repr

/-- The `Display` impl for `TTSMode`. -/
def modeDisplay : TTSMode → Str
  | .gTTS => "gTTS".toList
  | .Polly => "Polly".toList
  | .eSpeak => "eSpeak".toList
  | .gCloud => "gCloud".toList

/-- The request/response error enumeration (`enum Error`).  The payload of
    `Unknown` is the display text of the wrapped `anyhow::Error`. -/
inductive Error
  | Unauthorized
  | UnknownVoice (voice : Str)
  | AudioTooLong
  | InvalidSpeakingRate (rate : Rat)
  | Unknown (msg : Str)
deriving DecidableEq, Repr

/-- `TTSMode::max_speaking_rate`. -/
def max_speaking_rate : TTSMode → Option Rat
  | .gTTS => none
  | .Polly => some 500
  | .eSpeak => some 400
  | .gCloud => some 4

/-- `TTSMode::check_speaking_rate`: with a rate present and a mode maximum
    present, fail iff the rate exceeds the maximum. -/
def check_speaking_rate (mode : TTSMode) (speaking_rate : Option Rat) :
    Except Error Unit :=
  match speaking_rate with
  | some rate =>
    match max_speaking_rate mode with
    | some max => if max < rate then .error (.InvalidSpeakingRate rate) else .ok ()
    | none => .ok ()
  | none => .ok ()

/-- `check_mp3_length` (src/main.rs): `dur` is the oracle for
    `mp3_duration::from_read`, returning the decoded duration in seconds as a
    rational when decoding succeeds.  `d.as_secs() < max_length` becomes a
    comparison of the truncated (floored, durations being nonnegative) duration
    against the limit; an undecodable buffer passes (`map_or(true, ..)`). -/
def check_mp3_length (dur : Audio → Option Rat) (audio : Audio)
    (max_length : Nat) : Bool :=
  match dur audio with
  | none => true
  | some d => decide (d.floor < (max_length : Int))

/-- `TTSMode::check_length`: the length check is only applied when
    `max_length` is set; gTTS audio goes through `check_mp3_length`, eSpeak
    through its provider check (oracle `esp`), and gCloud/Polly always pass. -/
def check_length (dur : Audio → Option Rat) (esp : Audio → Nat → Bool)
    (mode : TTSMode) (audio : Audio) (max_length : Option Nat) :
    Except Error Unit :=
  let ok : Bool :=
    match max_length with
    | none => true
    | some max =>
      match mode with
      | .gTTS => check_mp3_length dur audio max
      | .eSpeak => esp audio max
      | .gCloud => true
      | .Polly => true
  if ok then .ok () else .error .AudioTooLong

example : displayRat 0 = "0".toList := by decide
example : displayRat 4 = "4".toList := by decide
example : displayRat (mkRat 3 2) = "1.5".toList := by decide
example : displayRat (mkRat 1 20) = "0.05".toList := by decide
example : displayRat (mkRat (-1) 2) = "-0.5".toList := by decide

/-! ### The request and the cache key (`struct GetTTS` and lines 104-111) -/

/-- The query payload of the `/tts` route (`struct GetTTS`). -/
structure GetTTS where
  text : Str
  mode : TTSMode
  voice : Str
  speaking_rate : Option Rat
  max_length : Option Nat
  preferred_format : Option Str
deriving DecidableEq, Repr

/-- The literal separator written by
    `format!("{text} | {voice} | {mode} | {}", ..)`. -/
def keySep : Str := [' ', '|', ' ']

/-- The suffix appended by `write!(cache_key, "| {preferred_format}")` when a
    preferred format is present (note: no space before the bar). -/
def fmtPart : Option Str → Str
  | none => []
  | some f => '|' :: ' ' :: f

/-- The pre-hash cache-key string of a request:
    `format!("{text} | {voice} | {mode} | {}", speaking_rate.unwrap_or(0.0))`
    followed by `"| {preferred_format}"` when the format is present.  The
    SHA-256 fingerprint is the digest of exactly this string, so two requests
    have equal fingerprints whenever their `cache_key`s are equal, and distinct
    fingerprints (up to hash collision) whenever their `cache_key`s differ. -/
def cache_key (r : GetTTS) : Str :=
  r.text ++ keySep ++ r.voice ++ keySep ++ modeDisplay r.mode ++ keySep ++
    displayRat ((r.speaking_rate).getD 0) ++ fmtPart r.preferred_format

/-- The tuple of rendered values that the cache key is built from. -/
def keyFields (r : GetTTS) : Str × Str × Str × Str × Option Str :=
  (r.text, r.voice, modeDisplay r.mode,
   displayRat ((r.speaking_rate).getD 0), r.preferred_format)

/-- A request whose free-text fields avoid the bar character used by the
    delimiter of `cache_key`. -/
def cleanReq (r : GetTTS) : Prop :=
  '|' ∉ r.text ∧ '|' ∉ r.voice ∧ ∀ f, r.preferred_format = some f → '|' ∉ f

instance cleanReqDecidable (r : GetTTS) : Decidable (cleanReq r) :=
  match hf : r.preferred_format with
  | none =>
    decidable_of_iff ('|' ∉ r.text ∧ '|' ∉ r.voice)
      ⟨fun ⟨h1, h2⟩ =>
        ⟨h1, h2, fun f hff => absurd (hf ▸ hff) (Option.noConfusion ·)⟩,
       fun ⟨h1, h2, _⟩ => ⟨h1, h2⟩⟩
  | some f =>
    decidable_of_iff ('|' ∉ r.text ∧ '|' ∉ r.voice ∧ '|' ∉ f)
      ⟨fun ⟨h1, h2, h3⟩ =>
        ⟨h1, h2, fun g hg => by
          rw [hf] at hg
          exact Option.some.inj hg ▸ h3⟩,
       fun ⟨h1, h2, h3⟩ => ⟨h1, h2, h3 f hf⟩⟩

/-- Split a character list at every occurrence of `c` (the occurrences are
    dropped; `n` bars yield `n + 1` chunks). -/
def splitOnChar (c : Char) : Str → List Str
  | [] => [[]]
  | x :: xs =>
    match splitOnChar c xs with
    | [] => [[]]
    | y :: ys => if x = c then [] :: y :: ys else (x :: y) :: ys

/-- Recover the rendered field tuple from a cache-key string: split at the
    bars, then strip the spaces that `cache_key` put around them. -/
def parseKey (key : Str) : Option (Str × Str × Str × Str × Option Str) :=
  match splitOnChar '|' key with
  | [c1, c2, c3, c4] =>
    some (c1.dropLast, c2.tail.dropLast, c3.tail.dropLast, c4.tail, none)
  | [c1, c2, c3, c4, c5] =>
    some (c1.dropLast, c2.tail.dropLast, c3.tail.dropLast, c4.tail, some c5.tail)
  | _ => none

example :
    cache_key ⟨"hi".toList, .gTTS, "en".toList, none, none, none⟩ =
      "hi | en | gTTS | 0".toList := by decide
example :
    cache_key ⟨"hi".toList, .gCloud, "en A".toList, some (mkRat 3 2), none,
        some ("ogg".toList)⟩ =
      "hi | en A | gCloud | 1.5| ogg".toList := by decide
example :
    parseKey ("hi | en A | gCloud | 1.5| ogg".toList) =
      some ("hi".toList, "en A".toList, "gCloud".toList, "1.5".toList,
        some ("ogg".toList)) := by decide

/-! ### The request-dispatch flow (`get_tts` in src/main.rs, lines 101-182)

The external world of one request is an oracle record: the redis connection
and key (when a cache is configured), the per-provider voice check and
synthesis calls, and the audio-duration decoders.  Every fallible call
carries the display text of its error.  `get_tts` returns the request's
outcome together with the chronological trace of external effects, so the
ordering claims of the spec are statements about the trace. -/

/-- The configured cache backing (`RedisCache` plus the behaviour of the
    store for this request's key): pooled-connection acquisition, the
    key-value read at the request's fingerprint, the fernet cipher, and the
    key-value write. -/
structure RedisEnv where
  pool : Except Str Unit
  kv_get : Except Str (Option Str)
  decrypt : Str → Except Str Audio
  encrypt : Audio → Str
  kv_set : Except Str Unit

/-- The oracle for one request's external calls. -/
structure Env where
  voice_check : TTSMode → Str → Except Str Bool
  redis : Option RedisEnv
  synth : TTSMode → Except Str Audio
  mp3_dur : Audio → Option Rat
  espeak_len : Audio → Nat → Bool

/-- Externally observable effects of one request, in chronological order. -/
inductive Event
  | voiceCheck
  | cacheGet
  | synthCall
  | cacheSet (ciphertext : Str)
  | lengthCheck
deriving DecidableEq, Repr

/-- The synthesis tail of `get_tts` (lines 142-182): call the provider,
    best-effort write the encrypted audio to the cache when one was
    configured (the write's own result is logged and otherwise ignored),
    then apply the length check and return the audio. -/
def get_tts_synth (env : Env) (r : GetTTS) (redisInfo : Option RedisEnv)
    (evs : List Event) : Except Error Audio × List Event :=
  match env.synth r.mode with
  | .error msg => (.error (.Unknown msg), evs ++ [.synthCall])
  | .ok audio =>
    let evs2 :=
      match redisInfo with
      | some re => evs ++ [.synthCall, .cacheSet (re.encrypt audio)]
      | none => evs ++ [.synthCall]
    match check_length env.mp3_dur env.espeak_len r.mode audio r.max_length with
    | .error e => (.error e, evs2 ++ [.lengthCheck])
    | .ok _ => (.ok audio, evs2 ++ [.lengthCheck])

/-- The dispatch flow of `get_tts` from the speaking-rate validation on
    (lines 101-182; the transport-level auth check that precedes it is not
    part of the dispatch core).  Step order as in the source: rate check,
    voice check, cache lookup (when configured), synthesis, cache store,
    length check.  A `?`-propagated failure of an external call surfaces as
    `Error::Unknown` via the blanket `From` impl. -/
def get_tts (env : Env) (r : GetTTS) : Except Error Audio × List Event :=
  match check_speaking_rate r.mode r.speaking_rate with
  | .error e => (.error e, [])
  | .ok _ =>
    match env.voice_check r.mode r.voice with
    | .error msg => (.error (.Unknown msg), [.voiceCheck])
    | .ok false => (.error (.UnknownVoice r.voice), [.voiceCheck])
    | .ok true =>
      match env.redis with
      | none => get_tts_synth env r none [.voiceCheck]
      | some re =>
        match re.pool with
        | .error msg => (.error (.Unknown msg), [.voiceCheck, .cacheGet])
        | .ok _ =>
          match re.kv_get with
          | .error msg => (.error (.Unknown msg), [.voiceCheck, .cacheGet])
          | .ok none => get_tts_synth env r (some re) [.voiceCheck, .cacheGet]
          | .ok (some enc) =>
            match re.decrypt enc with
            | .error msg => (.error (.Unknown msg), [.voiceCheck, .cacheGet])
            | .ok cached =>
              match check_length env.mp3_dur env.espeak_len r.mode cached
                  r.max_length with
              | .error e => (.error e, [.voiceCheck, .cacheGet, .lengthCheck])
              | .ok _ => (.ok cached, [.voiceCheck, .cacheGet, .lengthCheck])

/-! ### The credential lifecycle (src/premium.rs) -/

/-- `struct ServiceAccount`: immutable signing material. -/
structure ServiceAccount where
  private_key : Str
  client_email : Str
deriving DecidableEq, Repr

/-- The signed token, modelled by the header field and claim set that
    `generate_jwt` signs (`jsonwebtoken::encode` renders exactly these). -/
structure Jwt where
  kid : Str
  exp : Nat
  iat : Nat
  aud : Str
  iss : Str
  sub : Str
deriving DecidableEq, Repr

/-- `generate_jwt` (src/premium.rs lines 66-88): when the current time is
    strictly past `expire_time`, sign a claim set expiring 3600 seconds from
    now and return it with the new expiry; otherwise return `None`. -/
def generate_jwt (service_account : ServiceAccount) (expire_time : Nat)
    (current_time : Nat) : Option (Jwt × Nat) :=
  if expire_time < current_time then
    let new_expire_time := current_time + 3600
    some
      ({ kid := service_account.private_key
         exp := new_expire_time
         iat := current_time
         aud := "https://texttospeech.googleapis.com/".toList
         iss := service_account.client_email
         sub := service_account.client_email }, new_expire_time)
  else
    none

/-- The token-holding state behind the `RwLock` (`struct State` in
    src/premium.rs; the HTTP client field is irrelevant here). -/
structure PremiumState where
  service_account : ServiceAccount
  expire_time : Nat
  jwt_token : Jwt
deriving DecidableEq, Repr

/-- The credential step of `premium::get_tts` (lines 90-105): clone the
    state under the read lock, maybe generate and install a fresh token
    under the write lock, and return the token used for the outbound call
    together with the state after the step.  As in the source, the token
    returned for use is the `jwt_token` read before the refresh check. -/
def premium_token_step (st : PremiumState) (now : Nat) :
    Jwt × PremiumState :=
  match generate_jwt st.service_account st.expire_time now with
  | some (new_token, new_expire) =>
    (st.jwt_token,
     { st with expire_time := new_expire, jwt_token := new_token })
  | none => (st.jwt_token, st)

/-! ### Error rendering (`Display` and `IntoResponse` for `Error`) -/

/-- The `Display` impl for `Error`: the human-readable message placed in the
    response body's `display` field. -/
def errorDisplay : Error → Str
  | .InvalidSpeakingRate rate => "Invalid speaking rate: ".toList ++ displayRat rate
  | .AudioTooLong => "Max length exceeded!".toList
  | .UnknownVoice voice => "Unknown voice: ".toList ++ voice
  | .Unauthorized => "Unauthorized request".toList
  | .Unknown e => "Unknown error: ".toList ++ e

/-- The stable machine-readable code placed in the response body. -/
def errorCode : Error → Nat
  | .Unauthorized => 4
  | .InvalidSpeakingRate _ => 3
  | .AudioTooLong => 2
  | .UnknownVoice _ => 1
  | .Unknown _ => 0

/-- The HTTP status chosen by `IntoResponse for Error`. -/
def errorStatus : Error → Nat
  | .AudioTooLong => 400
  | .InvalidSpeakingRate _ => 400
  | .Unknown _ => 500
  | .UnknownVoice _ => 400
  | .Unauthorized => 403

/-- The client-visible response for an error: HTTP status plus the JSON body
    `{display, code}`. -/
def error_into_response (e : Error) : Nat × Str × Nat :=
  (errorStatus e, errorDisplay e, errorCode e)

/-! ### Lemmas: the delimiter bar never occurs in rendered numbers or mode
names, and `splitOnChar` undoes delimiter-clean concatenation -/

lemma digitChar_ne_bar (d : Nat) (h : d < 10) : digitChar d ≠ '|' := by
  interval_cases d <;> decide

lemma bar_not_mem_natDigitsAux : ∀ fuel n, '|' ∉ natDigitsAux fuel n := by
  intro fuel
  induction fuel with
  | zero => intro n; simp [natDigitsAux]
  | succ fuel ih =>
    intro n
    by_cases h : n = 0
    · simp [natDigitsAux, h]
    · simp only [natDigitsAux, h, if_false]
      intro hmem
      rcases List.mem_append.mp hmem with h1 | h1
      · exact ih _ h1
      · have h2 : ('|' : Char) = digitChar (n % 10) := by simpa using h1
        exact digitChar_ne_bar (n % 10) (Nat.mod_lt _ (by norm_num)) h2.symm

lemma bar_not_mem_natDigits (n : Nat) : '|' ∉ natDigits n := by
  unfold natDigits
  split
  · decide
  · exact bar_not_mem_natDigitsAux n n

lemma bar_not_mem_padZeros (k : Nat) (l : Str) (h : '|' ∉ l) :
    '|' ∉ padZeros k l := by
  unfold padZeros
  intro hmem
  rcases List.mem_append.mp hmem with h1 | h1
  · exact absurd (List.eq_of_mem_replicate h1) (by decide)
  · exact h h1

lemma bar_not_mem_displayPos (q : Rat) : '|' ∉ displayPos q := by
  unfold displayPos
  cases hk : decimalExponent q.den with
  | none =>
    intro hmem
    rcases List.mem_append.mp hmem with h1 | h1
    · exact bar_not_mem_natDigits _ h1
    · rcases List.mem_cons.mp h1 with h2 | h2
      · exact absurd h2 (by decide)
      · exact bar_not_mem_natDigits _ h2
  | some k =>
    by_cases hk0 : k = 0
    · simp only [hk0, if_pos rfl]
      exact bar_not_mem_natDigits _
    · simp only [if_neg hk0]
      intro hmem
      rcases List.mem_append.mp hmem with h1 | h1
      · exact bar_not_mem_natDigits _ h1
      · rcases List.mem_cons.mp h1 with h2 | h2
        · exact absurd h2 (by decide)
        · exact bar_not_mem_padZeros _ _ (bar_not_mem_natDigits _) h2

lemma bar_not_mem_displayRat (q : Rat) : '|' ∉ displayRat q := by
  unfold displayRat
  split
  · intro hmem
    rcases List.mem_cons.mp hmem with h | h
    · exact absurd h (by decide)
    · exact bar_not_mem_displayPos q h
  · exact bar_not_mem_displayPos q

lemma bar_not_mem_modeDisplay (m : TTSMode) : '|' ∉ modeDisplay m := by
  cases m <;> decide

lemma splitOnChar_ne_nil (c : Char) (xs : Str) : splitOnChar c xs ≠ [] := by
  cases xs with
  | nil => simp [splitOnChar]
  | cons x xs =>
    simp only [splitOnChar]
    cases h : splitOnChar c xs with
    | nil => simp
    | cons y ys => by_cases hx : x = c <;> simp [hx]

lemma splitOnChar_of_not_mem (c : Char) (xs : Str) (h : c ∉ xs) :
    splitOnChar c xs = [xs] := by
  induction xs with
  | nil => rfl
  | cons x xs ih =>
    have hx : ¬x = c := fun hh => h (hh ▸ List.mem_cons_self x xs)
    have htail : c ∉ xs := fun hc => h (List.mem_cons_of_mem x hc)
    simp only [splitOnChar, ih htail]
    simp [hx]

lemma splitOnChar_append_cons (c : Char) (xs ys : Str) (h : c ∉ xs) :
    splitOnChar c (xs ++ c :: ys) = xs :: splitOnChar c ys := by
  induction xs with
  | nil =>
    simp only [List.nil_append, splitOnChar]
    cases hsp : splitOnChar c ys with
    | nil => exact absurd hsp (splitOnChar_ne_nil c ys)
    | cons y ys' => simp
  | cons x xs ih =>
    have hx : ¬x = c := fun hh => h (hh ▸ List.mem_cons_self x xs)
    have htail : c ∉ xs := fun hc => h (List.mem_cons_of_mem x hc)
    rw [List.cons_append, splitOnChar, ih htail]
    simp [hx]

lemma dropLast_append_single (l : Str) (a : Char) : (l ++ [a]).dropLast = l := by
  simp

/-- The cache key, regrouped around its three separator bars and the
    optional format bar. -/
lemma cache_key_shape (r : GetTTS) :
    cache_key r =
      (r.text ++ [' ']) ++ '|' :: ((' ' :: (r.voice ++ [' '])) ++ '|' ::
        ((' ' :: (modeDisplay r.mode ++ [' '])) ++ '|' ::
          (' ' :: (displayRat ((r.speaking_rate).getD 0) ++
            fmtPart r.preferred_format)))) := by
  simp [cache_key, keySep]

/-- Parsing recovers the rendered field tuple of any delimiter-clean
    request from its cache-key string. -/
lemma parseKey_cache_key (r : GetTTS) (h : cleanReq r) :
    parseKey (cache_key r) = some (keyFields r) := by
  obtain ⟨ht, hv, hf⟩ := h
  have hrate := bar_not_mem_displayRat ((r.speaking_rate).getD 0)
  have hmode := bar_not_mem_modeDisplay r.mode
  have h1 : '|' ∉ r.text ++ [' '] := by
    intro hm
    rcases List.mem_append.mp hm with hm | hm
    · exact ht hm
    · exact absurd hm (by decide)
  have h2 : '|' ∉ ' ' :: (r.voice ++ [' ']) := by
    intro hm
    rcases List.mem_cons.mp hm with hm | hm
    · exact absurd hm (by decide)
    · rcases List.mem_append.mp hm with hm | hm
      · exact hv hm
      · exact absurd hm (by decide)
  have h3 : '|' ∉ ' ' :: (modeDisplay r.mode ++ [' ']) := by
    intro hm
    rcases List.mem_cons.mp hm with hm | hm
    · exact absurd hm (by decide)
    · rcases List.mem_append.mp hm with hm | hm
      · exact hmode hm
      · exact absurd hm (by decide)
  cases hfmt : r.preferred_format with
  | none =>
    have h4 : '|' ∉ ' ' :: (displayRat ((r.speaking_rate).getD 0) ++
        fmtPart r.preferred_format) := by
      rw [hfmt]
      intro hm
      rcases List.mem_cons.mp hm with hm | hm
      · exact absurd hm (by decide)
      · exact hrate (by simpa [fmtPart] using hm)
    have hsplit : splitOnChar '|' (cache_key r) =
        [r.text ++ [' '], ' ' :: (r.voice ++ [' ']),
         ' ' :: (modeDisplay r.mode ++ [' ']),
         ' ' :: (displayRat ((r.speaking_rate).getD 0) ++
           fmtPart r.preferred_format)] := by
      rw [cache_key_shape, splitOnChar_append_cons _ _ _ h1,
        splitOnChar_append_cons _ _ _ h2, splitOnChar_append_cons _ _ _ h3,
        splitOnChar_of_not_mem _ _ h4]
    simp [parseKey, hsplit, keyFields, hfmt, fmtPart]
  | some f =>
    have hbarf : '|' ∉ f := hf f hfmt
    have h4 : '|' ∉ ' ' :: displayRat ((r.speaking_rate).getD 0) := by
      intro hm
      rcases List.mem_cons.mp hm with hm | hm
      · exact absurd hm (by decide)
      · exact hrate hm
    have h5 : '|' ∉ ' ' :: f := by
      intro hm
      rcases List.mem_cons.mp hm with hm | hm
      · exact absurd hm (by decide)
      · exact hbarf hm
    have hregroup : ' ' :: (displayRat ((r.speaking_rate).getD 0) ++
        fmtPart r.preferred_format) =
        (' ' :: displayRat ((r.speaking_rate).getD 0)) ++ '|' :: (' ' :: f) := by
      rw [hfmt]
      simp [fmtPart]
    have hsplit : splitOnChar '|' (cache_key r) =
        [r.text ++ [' '], ' ' :: (r.voice ++ [' ']),
         ' ' :: (modeDisplay r.mode ++ [' ']),
         ' ' :: displayRat ((r.speaking_rate).getD 0), ' ' :: f] := by
      rw [cache_key_shape, splitOnChar_append_cons _ _ _ h1,
        splitOnChar_append_cons _ _ _ h2, splitOnChar_append_cons _ _ _ h3,
        hregroup, splitOnChar_append_cons _ _ _ h4,
        splitOnChar_of_not_mem _ _ h5]
    simp [parseKey, hsplit, keyFields, hfmt]

/-! ## Claim theorems -/

/-- C1 counterexample: the claim that any single-field difference changes
    the pre-hash cache-key string fails when a field contains the delimiter
    text, and when an absent speaking rate meets a present rate of 0: both
    pairs below differ in a fingerprinted field yet produce identical
    pre-hash strings (hence identical SHA-256 fingerprints). -/
theorem cache_key_collision_counterexample :
    (cache_key ⟨"a | b".toList, .gTTS, "c".toList, none, none, none⟩ =
        cache_key ⟨"a".toList, .gTTS, "b | c".toList, none, none, none⟩ ∧
      (⟨"a | b".toList, .gTTS, "c".toList, none, none, none⟩ : GetTTS) ≠
        ⟨"a".toList, .gTTS, "b | c".toList, none, none, none⟩) ∧
    (cache_key ⟨"a".toList, .gTTS, "c".toList, none, none, none⟩ =
        cache_key ⟨"a".toList, .gTTS, "c".toList, some 0, none, none⟩ ∧
      (⟨"a".toList, .gTTS, "c".toList, none, none, none⟩ : GetTTS) ≠
        ⟨"a".toList, .gTTS, "c".toList, some 0, none, none⟩) := by decide

/-- C1 amended: the cache fingerprint is a function of exactly
    (text, voice, mode name, decimal rendering of speakingRate-or-0,
    optional preferredFormat) — equal values of these always give the same
    pre-hash string — and for requests whose text, voice and format contain
    no `|` character, the pre-hash strings (hence the SHA-256 fingerprints,
    up to hash collision) coincide exactly when that field tuple coincides;
    values containing the delimiter, and an absent rate versus a present
    rate rendered `0`, may collide. -/
theorem cache_key_eq_iff_fields_eq :
    ∀ r1 r2 : GetTTS, cleanReq r1 → cleanReq r2 →
      (cache_key r1 = cache_key r2 ↔ keyFields r1 = keyFields r2) := by
  intro r1 r2 h1 h2
  constructor
  · intro h
    have hp := congrArg parseKey h
    rw [parseKey_cache_key r1 h1, parseKey_cache_key r2 h2] at hp
    exact Option.some.inj hp
  · intro h
    simp only [keyFields, Prod.mk.injEq] at h
    obtain ⟨ht, hv, hm, hr, hf⟩ := h
    simp only [cache_key, ht, hv, hm, hr, hf]

/-- C1 witness: two clean requests differing only in voice get different
    pre-hash strings, and a clean request's key equals itself. -/
theorem cache_key_eq_iff_fields_eq_witness :
    cache_key ⟨"hello".toList, .gTTS, "en".toList, none, none, none⟩ ≠
      cache_key ⟨"hello".toList, .gTTS, "de".toList, none, none, none⟩ := by
  intro h
  have h2 := (cache_key_eq_iff_fields_eq
    ⟨"hello".toList, .gTTS, "en".toList, none, none, none⟩
    ⟨"hello".toList, .gTTS, "de".toList, none, none, none⟩
    (by decide) (by decide)).mp h
  exact absurd h2 (by decide)

/-- C7: speaking-rate validation is an exclusive upper-bound check per mode:
    with a rate present and a mode maximum `some max`, `check_speaking_rate`
    fails with `InvalidSpeakingRate` iff the rate exceeds `max`; an absent rate
    or the unbounded gTTS mode always passes; for gCloud (max 4.0) the rate
    4.0 is accepted and 4.0001 rejected. -/
theorem check_speaking_rate_exclusive_upper_bound :
    (∀ (m : TTSMode) (max r : Rat), max_speaking_rate m = some max →
      (check_speaking_rate m (some r) = .error (.InvalidSpeakingRate r) ↔
        max < r)) ∧
    (∀ m : TTSMode, check_speaking_rate m none = .ok ()) ∧
    (∀ r : Rat, check_speaking_rate .gTTS (some r) = .ok ()) ∧
    check_speaking_rate .gCloud (some 4) = .ok () ∧
    check_speaking_rate .gCloud (some (mkRat 40001 10000)) =
      .error (.InvalidSpeakingRate (mkRat 40001 10000)) := by
  refine ⟨?_, fun m => rfl, fun r => rfl, rfl, rfl⟩
  intro m max r h
  simp only [check_speaking_rate, h]
  by_cases hc : max < r
  · simp [hc]
  · simp [hc]

/-- C7 witness: a rate of 5 on gCloud (maximum 4) is rejected. -/
theorem check_speaking_rate_exclusive_upper_bound_witness :
    check_speaking_rate .gCloud (some 5) = .error (.InvalidSpeakingRate 5) :=
  (check_speaking_rate_exclusive_upper_bound.1 .gCloud 4 5 rfl).mpr (by norm_num)

/-- C10: `check_mp3_length` is lenient on parse failure (an undecodable
    buffer passes), and when a duration `d ≥ 0` is decoded, the audio passes
    iff the whole-second truncation of `d` is strictly below the limit; in
    particular a truncated duration equal to the limit is rejected. -/
theorem check_mp3_length_lenient_and_strict :
    ∀ (dur : Audio → Option Rat) (audio : Audio) (max_length : Nat),
      (dur audio = none → check_mp3_length dur audio max_length = true) ∧
      (∀ d : Rat, dur audio = some d → 0 ≤ d →
        (check_mp3_length dur audio max_length = true ↔
          d.floor < (max_length : Int))) ∧
      (∀ d : Rat, dur audio = some d → d.floor = (max_length : Int) →
        check_mp3_length dur audio max_length = false) := by
  intro dur audio max_length
  refine ⟨fun h => by simp [check_mp3_length, h], ?_, ?_⟩
  · intro d hd _
    simp [check_mp3_length, hd]
  · intro d hd hfloor
    simp [check_mp3_length, hd, hfloor]

/-- C10 witness: a decoded duration of 3.5 seconds truncates to 3 and is
    rejected under a limit of 3 seconds. -/
theorem check_mp3_length_lenient_and_strict_witness :
    check_mp3_length (fun _ => some (mkRat 7 2)) [] 3 = false :=
  (check_mp3_length_lenient_and_strict (fun _ => some (mkRat 7 2)) [] 3).2.2
    (mkRat 7 2) rfl (by decide)

/-- C4 counterexample: the claim that server-caused (`Unknown`) errors
    produce the same client-visible message regardless of the internal
    cause's content is false — two different internal causes produce two
    different response bodies, and the body embeds the cause text. -/
theorem unknown_error_leaks_cause_counterexample :
    error_into_response (.Unknown ("connection refused".toList)) ≠
      error_into_response (.Unknown ("bad rsa key".toList)) ∧
    errorDisplay (.Unknown ("connection refused".toList)) =
      "Unknown error: connection refused".toList := by decide

/-- C4 amended: a server-caused (`Unknown`) error is returned with HTTP 500
    and stable code 0, but its human-readable message is the text
    `Unknown error: ` followed by the internal cause's display text — the
    internal cause is embedded in the client-visible body, not hidden. -/
theorem unknown_error_response_embeds_cause :
    ∀ msg : Str,
      error_into_response (.Unknown msg) =
        (500, "Unknown error: ".toList ++ msg, 0) := by
  intro msg
  rfl

/-- The immutable signing material of the C3 scenario. -/
def c3ServiceAccount : ServiceAccount :=
  ⟨"PEM".toList, "svc@example.com".toList⟩

/-- The stored token of the C3 scenario, expiring at t = 100. -/
def c3OldToken : Jwt :=
  ⟨"PEM".toList, 100, 0, "https://texttospeech.googleapis.com/".toList,
   "svc@example.com".toList, "svc@example.com".toList⟩

/-- The stored credential state of the C3 scenario. -/
def c3State : PremiumState := ⟨c3ServiceAccount, 100, c3OldToken⟩

/-- C3: evaluation of the credential step at the failing input.  At
    t = 200, with the stored expiry 100 in the past, the code does generate
    and install a fresh token (expiry 3800) under the write lock — but the
    token it hands out for the outbound call is the stale one it read before
    the refresh, whose expiry 100 has already passed; the fresh token is not
    the one used.  Moreover at t = 100 (expiry equal to now) nothing is
    refreshed at all, the comparison being strict. -/
theorem premium_refresh_uses_stale_token :
    (premium_token_step c3State 200).1 = c3OldToken ∧
    (premium_token_step c3State 200).1.exp ≤ 200 ∧
    (premium_token_step c3State 200).2.jwt_token.exp = 3800 ∧
    (premium_token_step c3State 200).2.expire_time = 3800 ∧
    (premium_token_step c3State 200).2.jwt_token ≠
      (premium_token_step c3State 200).1 ∧
    premium_token_step c3State 100 = (c3OldToken, c3State) := by decide

/-! ### Concrete oracles used by the witnesses and counterexamples -/

/-- A healthy cache backing whose store is empty at this request's key. -/
def missRedis : RedisEnv :=
  { pool := .ok ()
    kv_get := .ok none
    decrypt := fun _ => .error ("unreachable".toList)
    encrypt := fun _ => "ciphertext".toList
    kv_set := .ok () }

/-- A healthy environment: every voice valid, cache configured but empty,
    synthesis returning a three-byte clip of two seconds. -/
def okEnv : Env :=
  { voice_check := fun _ _ => .ok true
    redis := some missRedis
    synth := fun _ => .ok [1, 2, 3]
    mp3_dur := fun _ => some 2
    espeak_len := fun _ _ => true }

/-- A plain gTTS request with no optional parameters. -/
def plainReq : GetTTS :=
  ⟨"hello".toList, .gTTS, "en".toList, none, none, none⟩

/-- C2 counterexample: with the key-value read succeeding and decryption of
    the stored entry failing, the request does not degrade to a cache miss:
    it returns the propagated internal error, and no synthesis call is made,
    refuting the claim that the synthesized audio is returned. -/
theorem decrypt_failure_not_a_miss_counterexample :
    get_tts
        { okEnv with
          redis := some
            { missRedis with
              kv_get := .ok (some ("stored".toList))
              decrypt := fun _ => .error ("decryption failed".toList) } }
        plainReq =
      (.error (.Unknown ("decryption failed".toList)), [.voiceCheck, .cacheGet]) ∧
    .synthCall ∉
      (get_tts
        { okEnv with
          redis := some
            { missRedis with
              kv_get := .ok (some ("stored".toList))
              decrypt := fun _ => .error ("decryption failed".toList) } }
        plainReq).2 :=
  ⟨rfl, by decide⟩

/-- C2 amended: when the cache is configured, the key-value read succeeds,
    and decrypting the stored entry fails, dispatch fails the request with
    the propagated internal (`Unknown`) error — a decryption failure is a
    hard error, not a cache miss, and synthesis is never reached. -/
theorem decrypt_failure_is_hard_error :
    ∀ (env : Env) (re : RedisEnv) (r : GetTTS) (enc msg : Str),
      env.redis = some re → re.pool = .ok () → re.kv_get = .ok (some enc) →
      re.decrypt enc = .error msg →
      check_speaking_rate r.mode r.speaking_rate = .ok () →
      env.voice_check r.mode r.voice = .ok true →
      get_tts env r = (.error (.Unknown msg), [.voiceCheck, .cacheGet]) := by
  intro env re r enc msg hredis hpool hget hdec hrate hvoice
  simp only [get_tts, hrate, hvoice, hredis, hpool, hget, hdec]

/-- C2 witness for the amended theorem, at a concrete corrupted entry. -/
theorem decrypt_failure_is_hard_error_witness :
    get_tts
        { okEnv with
          redis := some
            { missRedis with
              kv_get := .ok (some ("stored".toList))
              decrypt := fun _ => .error ("bad token".toList) } }
        plainReq =
      (.error (.Unknown ("bad token".toList)), [.voiceCheck, .cacheGet]) :=
  decrypt_failure_is_hard_error _ _ plainReq ("stored".toList) "bad token".toList
    rfl rfl rfl rfl rfl rfl

/-- C5: a failing cache store write never changes the request's outcome —
    the result (and effect trace) equals that of the same request with a
    succeeding write, and when synthesis succeeded and the length check
    passes, the synthesized audio is returned. -/
theorem store_failure_preserves_outcome :
    ∀ (env : Env) (re : RedisEnv) (msg : Str) (r : GetTTS),
      env.redis = some re → re.kv_set = .error msg →
      (get_tts env r =
        get_tts { env with redis := some { re with kv_set := .ok () } } r) ∧
      (∀ audio : Audio, re.pool = .ok () → re.kv_get = .ok none →
        check_speaking_rate r.mode r.speaking_rate = .ok () →
        env.voice_check r.mode r.voice = .ok true →
        env.synth r.mode = .ok audio →
        check_length env.mp3_dur env.espeak_len r.mode audio r.max_length =
          .ok () →
        (get_tts env r).1 = .ok audio) := by
  intro env re msg r hredis hset
  constructor
  · obtain ⟨vc, rd, sy, mp, el⟩ := env
    obtain ⟨p, g, d, en, s⟩ := re
    simp only at hredis
    subst hredis
    rfl
  · intro audio hpool hget hrate hvoice hsynth hlen
    simp only [get_tts, get_tts_synth, hrate, hvoice, hredis, hpool, hget,
      hsynth, hlen]

/-- C5 witness: with the store write failing, the request still returns the
    synthesized audio. -/
theorem store_failure_preserves_outcome_witness :
    (get_tts
        { okEnv with
          redis := some { missRedis with kv_set := .error ("redis down".toList) } }
        plainReq).1 =
      .ok [1, 2, 3] :=
  (store_failure_preserves_outcome _ _ ("redis down".toList) plainReq rfl rfl).2
    [1, 2, 3] rfl rfl rfl rfl rfl rfl

/-- C6: the length check applies identically to cache-hit audio and freshly
    synthesized audio — a cached entry that fails `check_length` under the
    current request's limit is rejected with `AudioTooLong` (no synthesis
    attempted), and a fresh synthesis result failing the same check is
    rejected the same way. -/
theorem length_check_uniform_on_hit_and_fresh :
    (∀ (env : Env) (re : RedisEnv) (r : GetTTS) (enc : Str) (audio : Audio),
      env.redis = some re → re.pool = .ok () → re.kv_get = .ok (some enc) →
      re.decrypt enc = .ok audio →
      check_speaking_rate r.mode r.speaking_rate = .ok () →
      env.voice_check r.mode r.voice = .ok true →
      check_length env.mp3_dur env.espeak_len r.mode audio r.max_length =
        .error .AudioTooLong →
      get_tts env r =
        (.error .AudioTooLong, [.voiceCheck, .cacheGet, .lengthCheck])) ∧
    (∀ (env : Env) (r : GetTTS) (audio : Audio),
      env.redis = none →
      check_speaking_rate r.mode r.speaking_rate = .ok () →
      env.voice_check r.mode r.voice = .ok true →
      env.synth r.mode = .ok audio →
      check_length env.mp3_dur env.espeak_len r.mode audio r.max_length =
        .error .AudioTooLong →
      get_tts env r =
        (.error .AudioTooLong, [.voiceCheck, .synthCall, .lengthCheck])) := by
  constructor
  · intro env re r enc audio hredis hpool hget hdec hrate hvoice hlen
    simp only [get_tts, hrate, hvoice, hredis, hpool, hget, hdec, hlen]
  · intro env r audio hredis hrate hvoice hsynth hlen
    simp only [get_tts, get_tts_synth, hrate, hvoice, hredis, hsynth, hlen]
    rfl

/-- C6 witness: a cached ten-second gTTS clip is rejected under a later
    caller's five-second limit. -/
theorem length_check_uniform_on_hit_and_fresh_witness :
    get_tts
        { okEnv with
          redis := some
            { missRedis with
              kv_get := .ok (some ("stored".toList))
              decrypt := fun _ => .ok [9, 9, 9] }
          mp3_dur := fun _ => some 10 }
        { plainReq with max_length := some 5 } =
      (.error .AudioTooLong, [.voiceCheck, .cacheGet, .lengthCheck]) :=
  length_check_uniform_on_hit_and_fresh.1 _ _
    { plainReq with max_length := some 5 } "stored".toList [9, 9, 9]
    rfl rfl rfl rfl rfl rfl rfl

/-- C8: the per-request steps run in the fixed order rate validation, voice
    validation, cache lookup, synthesis, length validation: a rate failure
    returns with an empty effect trace (no voice check, no cache access, no
    backend call); an unknown voice returns after only the voice check; and
    a full fresh-synthesis run performs exactly voice check, cache read,
    synthesis, cache write, length check, in that order. -/
theorem dispatch_fixed_step_order :
    (∀ (env : Env) (r : GetTTS) (e : Error),
      check_speaking_rate r.mode r.speaking_rate = .error e →
      get_tts env r = (.error e, [])) ∧
    (∀ (env : Env) (r : GetTTS),
      check_speaking_rate r.mode r.speaking_rate = .ok () →
      env.voice_check r.mode r.voice = .ok false →
      get_tts env r = (.error (.UnknownVoice r.voice), [.voiceCheck])) ∧
    (∀ (env : Env) (re : RedisEnv) (r : GetTTS) (audio : Audio),
      env.redis = some re → re.pool = .ok () → re.kv_get = .ok none →
      check_speaking_rate r.mode r.speaking_rate = .ok () →
      env.voice_check r.mode r.voice = .ok true →
      env.synth r.mode = .ok audio →
      check_length env.mp3_dur env.espeak_len r.mode audio r.max_length =
        .ok () →
      get_tts env r =
        (.ok audio,
         [.voiceCheck, .cacheGet, .synthCall, .cacheSet (re.encrypt audio),
          .lengthCheck])) := by
  refine ⟨?_, ?_, ?_⟩
  · intro env r e hrate
    simp only [get_tts, hrate]
  · intro env r hrate hvoice
    simp only [get_tts, hrate, hvoice]
  · intro env re r audio hredis hpool hget hrate hvoice hsynth hlen
    simp only [get_tts, get_tts_synth, hrate, hvoice, hredis, hpool, hget,
      hsynth, hlen]
    rfl

/-- C8 witness: an eSpeak request at rate 500 (maximum 400) fails with
    `InvalidSpeakingRate` and an empty effect trace. -/
theorem dispatch_fixed_step_order_witness :
    get_tts okEnv ⟨"hi".toList, .eSpeak, "en".toList, some 500, none, none⟩ =
      (.error (.InvalidSpeakingRate 500), []) :=
  dispatch_fixed_step_order.1 okEnv
    ⟨"hi".toList, .eSpeak, "en".toList, some 500, none, none⟩
    (.InvalidSpeakingRate 500) rfl

/-- C9: on the fresh-synthesis path with a cache configured, the encrypted
    audio is written to the cache before the length check runs, so a request
    whose audio fails `max_length` still populates the cache: the trace
    contains the `cacheSet` of the encrypted audio ahead of the length
    check, while the request itself fails with `AudioTooLong`. -/
theorem cache_store_precedes_length_check :
    ∀ (env : Env) (re : RedisEnv) (r : GetTTS) (audio : Audio),
      env.redis = some re → re.pool = .ok () → re.kv_get = .ok none →
      check_speaking_rate r.mode r.speaking_rate = .ok () →
      env.voice_check r.mode r.voice = .ok true →
      env.synth r.mode = .ok audio →
      check_length env.mp3_dur env.espeak_len r.mode audio r.max_length =
        .error .AudioTooLong →
      get_tts env r =
        (.error .AudioTooLong,
         [.voiceCheck, .cacheGet, .synthCall, .cacheSet (re.encrypt audio),
          .lengthCheck]) := by
  intro env re r audio hredis hpool hget hrate hvoice hsynth hlen
  simp only [get_tts, get_tts_synth, hrate, hvoice, hredis, hpool, hget,
    hsynth, hlen]
  rfl

/-- C9 witness: a fresh ten-second gTTS clip fails a five-second limit with
    `AudioTooLong`, yet the encrypted audio was already stored. -/
theorem cache_store_precedes_length_check_witness :
    get_tts { okEnv with mp3_dur := fun _ => some 10 }
        { plainReq with max_length := some 5 } =
      (.error .AudioTooLong,
       [.voiceCheck, .cacheGet, .synthCall, .cacheSet ("ciphertext".toList),
        .lengthCheck]) :=
  cache_store_precedes_length_check _ missRedis
    { plainReq with max_length := some 5 } [1, 2, 3]
    rfl rfl rfl rfl rfl rfl rfl

end TTSService
